import Mathlib

/-
Shallow embedding of the protocol, ledger and persistence core of the two-board
rock-paper-scissors game (Nucleo F446RE initiator node and Disc F407VG responder
node).  Machine integers (uint8_t, uint32_t) are modelled as Nat with explicit
reduction modulo 256 or 2^32 at every point where the C code can overflow or
truncate.  Blocking UART log lines are a write-only side channel (spec section 1)
and are not modelled.
-/

-- ## Win arbiter: Determine_Win, Disc_F407VG/Two_Boards_Game/Src/main_.c lines 212-238.
-- Inputs are uint8_t values; the C function is a chain of equality tests with a
-- final fallback of 4 (error indication).

def Determine_Win (player1 player2 : Nat) : Nat :=
  if player1 = 0 ∧ player2 = 1 then 2
  else if player1 = 0 ∧ player2 = 2 then 1
  else if player1 = 1 ∧ player2 = 0 then 1
  else if player1 = 1 ∧ player2 = 2 then 2
  else if player1 = 2 ∧ player2 = 0 then 2
  else if player1 = 2 ∧ player2 = 1 then 1
  else if player1 = player2 then 3
  else 4

-- ## Debounce sampler: HAL_TIM_PeriodElapsedCallback, Disc main_.c lines 414-436.
-- One timer tick: debounce_cnt is a uint8_t global; an active sample increments
-- it (mod 256), an inactive sample resets it to zero; when it reaches 100 it is
-- reset and CAN1_Tx fires (the Bool result records whether the trigger fired).

def HAL_TIM_PeriodElapsedCallback (debounce_cnt : Nat) (btn_state : Bool) : Nat × Bool :=
  let c := if btn_state then (debounce_cnt + 1) % 256 else 0
  if c = 100 then (0, true) else (c, false)

-- Folds the tick callback over a sample sequence, returning the final counter
-- and the total number of trigger firings.

def debounceRun : Nat → List Bool → Nat × Nat
  | cnt, [] => (cnt, 0)
  | cnt, b :: rest =>
    let s := HAL_TIM_PeriodElapsedCallback cnt b
    let r := debounceRun s.1 rest
    (r.1, (if s.2 then 1 else 0) + r.2)

-- ## CAN frames.  A transmitted frame is its header (StdId, DLC, RTR kind) plus
-- the bytes of the buffer handed to HAL_CAN_AddTxMessage.

inductive RTRKind
  | data
  | remote
deriving DecidableEq

structure TxFrame where
  StdId : Nat
  DLC : Nat
  RTR : RTRKind
  payload : List Nat
deriving DecidableEq

-- ## send_game_result, Disc main_.c lines 248-268.  The buffer handed to the
-- HAL is the single uint8_t variable holding the winner, yet DLC is set to 2;
-- the second transmitted byte is read past the end of that one-byte buffer
-- (indeterminate), so only the one supplied byte appears in the payload model.

def send_game_result (winner : Nat) : TxFrame :=
  { StdId := 0x111, DLC := 2, RTR := RTRKind.data, payload := [winner % 256] }

-- ## Score ledger: the four uint8_t globals of Nucleo main_.c lines 26-29.

structure Ledger where
  nucleo_wins : Nat
  disc_wins : Nat
  tie_count : Nat
  game_err : Nat
deriving DecidableEq

-- ## send_game_stats, Nucleo main_.c lines 215-235: data frame with DLC 4
-- carrying the four counters in fixed order.

def send_game_stats (StdId : Nat) (st : Ledger) : TxFrame :=
  { StdId := StdId, DLC := 4, RTR := RTRKind.data,
    payload := [st.nucleo_wins % 256, st.disc_wins % 256,
                st.tie_count % 256, st.game_err % 256] }

-- ## The switch statement of the Nucleo Rx handler, main_.c lines 263-277.
-- Each uint8_t counter increments modulo 256; an unmatched byte changes nothing.

def score_switch (st : Ledger) (b : Nat) : Ledger :=
  if b = 1 then { st with nucleo_wins := (st.nucleo_wins + 1) % 256 }
  else if b = 2 then { st with disc_wins := (st.disc_wins + 1) % 256 }
  else if b = 3 then { st with tie_count := (st.tie_count + 1) % 256 }
  else if b = 4 then { st with game_err := (st.game_err + 1) % 256 }
  else st

-- ## Decimal formatting of a nonnegative int by the %d conversion of sprintf:
-- most significant digit first, as ASCII bytes.  Fuel-structured so that the
-- kernel can evaluate it; the initial fuel n + 1 always suffices.

def decAux : Nat → Nat → List Nat
  | 0, _ => []
  | fuel + 1, n =>
    if n < 10 then [48 + n] else decAux fuel (n / 10) ++ [48 + n % 10]

def decBytes (n : Nat) : List Nat :=
  decAux (n + 1) n

-- ## sprintf with %d conversions only, over byte lists: literal bytes are
-- copied, the two-byte sequence 37 100 (the characters percent and d) consumes
-- the next argument and emits its decimal digits.

def fmtBytes : List Nat → List Nat → List Nat
  | [], _ => []
  | 37 :: 100 :: rest, a :: args => decBytes a ++ fmtBytes rest args
  | b :: rest, args => b :: fmtBytes rest args

-- The format string of store_score_in_bSRAM, Nucleo main_.c line 316:
-- Nucleo Wins: %d, Disc Wins: %d, Ties: %d, Game Error: %d CR LF
-- as ASCII bytes (37 100 marks each %d conversion; 13 10 is CR LF).

def store_fmt : List Nat :=
  [78, 117, 99, 108, 101, 111, 32, 87, 105, 110, 115, 58, 32, 37, 100,
   44, 32, 68, 105, 115, 99, 32, 87, 105, 110, 115, 58, 32, 37, 100,
   44, 32, 84, 105, 101, 115, 58, 32, 37, 100,
   44, 32, 71, 97, 109, 101, 32, 69, 114, 114, 111, 114, 58, 32, 37, 100,
   13, 10]

-- ## store_score_in_bSRAM, Nucleo main_.c lines 312-331.  The four uint8_t
-- arguments are formatted through sprintf and the copy loop writes
-- strlen(write_buff) + 1 bytes to the backup SRAM base: the whole record plus
-- its NUL terminator (no byte of the record is zero, so strlen is the record
-- length).  The result is the byte sequence written starting at the base address.

def store_score_in_bSRAM (p1_wins p2_wins game_ties game_errs : Nat) : List Nat :=
  fmtBytes store_fmt [p1_wins % 256, p2_wins % 256, game_ties % 256, game_errs % 256] ++ [0]

-- ## The length scan of load_bSRAM_score, Nucleo main_.c lines 353-362.
-- State: text_end (the char last read, initially the letter a = 97) and
-- text_length (a uint8_t, so stored modulo 256).  The loop guard is
-- text_end differing from LF and text_length at most 255; since text_length is
-- a uint8_t the second conjunct can never fail, which the embedding keeps
-- literally.  Fuel counts remaining iterations; none means the loop has not
-- exited within the given fuel.

def scanAux (mem : Nat → Nat) : Nat → Nat → Nat → Option Nat
  | 0, _, _ => none
  | fuel + 1, text_end, text_length =>
    if text_end = 10 ∨ 255 < text_length then some text_length
    else scanAux mem fuel (mem text_length) ((text_length + 1) % 256)

def findLen (mem : Nat → Nat) (fuel : Nat) : Option Nat :=
  scanAux mem fuel 97 0

-- ## The digit-accumulation loop of load_bSRAM_score, lines 364-389.
-- State per iteration: c (char last inspected, initially the letter a), num
-- (uint32_t accumulator), j (uint8_t slot index) and the uint8_t stats[4]
-- array.  When the previous character was not a comma the current byte is read
-- and, if a digit, accumulated; when it was a comma the accumulator is pushed
-- into stats[j] (truncated to uint8_t) and the current byte is read without the
-- digit test.  A write at j at least 4 would be out of bounds in C; the claims
-- settled here only involve inputs with at most three commas, and List.set
-- leaves the list unchanged out of range.

structure PSt where
  c : Nat
  num : Nat
  j : Nat
  stats : List Nat
deriving DecidableEq

def pstep (s : PSt) (b : Nat) : PSt :=
  if s.c ≠ 44 then
    if 48 ≤ b ∧ b ≤ 57 then
      { s with c := b, num := (s.num * 10 + (b - 48)) % 4294967296 }
    else
      { s with c := b }
  else
    { c := b, num := 0, j := (s.j + 1) % 256, stats := s.stats.set s.j (s.num % 256) }

def parseStats (bytes : List Nat) : List Nat :=
  (bytes.foldl pstep ⟨97, 0, 0, [0, 0, 0, 0]⟩).stats

-- ## load_bSRAM_score, Nucleo main_.c lines 340-405, as a function of the
-- standby flag and the backup SRAM contents.  Fuel 257 decides the scan: the
-- scan state revisits its cycle of at most 256 read positions within 257
-- iterations, so if it has not exited by then it never will (scanAux_stuck
-- below proves the loop runs forever whenever the first 256 bytes hold no LF).
-- none models the scan never exiting; with the flag clear the counters keep
-- their zero-initialised global values.

def bSRAM_counters (mem : Nat → Nat) : Option Ledger :=
  match findLen mem 257 with
  | none => none
  | some len =>
    let sts := parseStats ((List.range len).map mem)
    some ⟨sts.getD 0 0, sts.getD 1 0, sts.getD 2 0, sts.getD 3 0⟩

def load_bSRAM_score (standby_flag : Bool) (mem : Nat → Nat) : Option Ledger :=
  if standby_flag then bSRAM_counters mem else some ⟨0, 0, 0, 0⟩

-- Backup SRAM contents described by a byte list placed at the base address;
-- bytes beyond the list are modelled as zero.

def memOfList (l : List Nat) (i : Nat) : Nat :=
  l.getD i 0

-- ## Nucleo Rx FIFO0 pending callback, main_.c lines 245-287, restricted to
-- the protocol work: the ledger update, the bytes persisted to backup SRAM and
-- the frame transmitted in reply, as selected by the received header and first
-- payload byte.  The UART log lines are not modelled.

structure RxOutcome where
  ledger : Ledger
  stored : Option (List Nat)
  sent : Option TxFrame
deriving DecidableEq

def HAL_CAN_RxFifo0MsgPendingCallback (st : Ledger) (StdId : Nat) (rtr : RTRKind)
    (payload0 : Nat) : RxOutcome :=
  if StdId = 0x111 ∧ rtr = RTRKind.data then
    let st2 := score_switch st payload0
    ⟨st2,
     some (store_score_in_bSRAM st2.nucleo_wins st2.disc_wins st2.tie_count st2.game_err),
     none⟩
  else if StdId = 0x633 ∧ rtr = RTRKind.remote then
    ⟨st, none, some (send_game_stats StdId st)⟩
  else
    ⟨st, none, none⟩

-- ## Supporting lemmas

-- The length scan never exits when the first 256 bytes of storage contain no
-- LF byte: the guard on text_length is vacuous for a uint8_t, and every byte
-- the loop can ever read comes from offsets 0 to 255.

lemma scanAux_stuck (mem : Nat → Nat) (hmem : ∀ i, i < 256 → mem i ≠ 10) :
    ∀ fuel text_end text_length, text_end ≠ 10 → text_length < 256 →
      scanAux mem fuel text_end text_length = none := by
  intro fuel
  induction fuel with
  | zero =>
    intro text_end text_length _ _
    rfl
  | succ n ih =>
    intro text_end text_length hte htl
    simp only [scanAux]
    rw [if_neg (by omega)]
    exact ih (mem text_length) ((text_length + 1) % 256) (hmem text_length htl)
      (Nat.mod_lt _ (by omega))

-- Unfolding equation for one debounce tick at the head of a sample list.

lemma debounceRun_snd_cons (cnt : Nat) (b : Bool) (l : List Bool) :
    (debounceRun cnt (b :: l)).2 =
      (if (HAL_TIM_PeriodElapsedCallback cnt b).2 then 1 else 0) +
      (debounceRun (HAL_TIM_PeriodElapsedCallback cnt b).1 l).2 := rfl

-- Below the threshold the uint8_t increment cannot wrap, so an active tick
-- either advances the counter or fires and resets it.

lemma HAL_tick_active (cnt : Nat) (h : cnt < 100) :
    HAL_TIM_PeriodElapsedCallback cnt true =
      if cnt + 1 = 100 then (0, true) else (cnt + 1, false) := by
  have hm : (cnt + 1) % 256 = cnt + 1 := Nat.mod_eq_of_lt (by omega)
  simp [HAL_TIM_PeriodElapsedCallback, hm]

-- During an uninterrupted run of active samples the debounce counter, started
-- below the threshold, fires once each time it reaches 100 and restarts at 0.

lemma debounceRun_all_active (n : Nat) : ∀ cnt, cnt < 100 →
    (debounceRun cnt (List.replicate n true)).2 = (cnt + n) / 100 := by
  induction n with
  | zero =>
    intro cnt h
    rw [List.replicate_zero]
    show 0 = (cnt + 0) / 100
    omega
  | succ m ih =>
    intro cnt h
    rw [List.replicate_succ, debounceRun_snd_cons, HAL_tick_active cnt h]
    by_cases h100 : cnt + 1 = 100
    · rw [if_pos h100]
      simp only [ih 0 (by omega)]
      simp
      omega
    · rw [if_neg h100]
      simp only [ih (cnt + 1) (by omega)]
      simp
      omega

-- ## Claim theorems

set_option maxRecDepth 8192 in
/-- Claim C1 (code bug): the serialize-then-deserialize round trip does not
return the stored tuple.  Storing the counters (3, 5, 2, 1) with the wake flag
set reloads (3, 5, 2, 0): the parser commits an accumulated number only upon
reading a separator, and no separator follows the final field, so the invalid
counter always reloads as zero. -/
theorem store_load_roundtrip_drops_game_err :
    load_bSRAM_score true (memOfList (store_score_in_bSRAM 3 5 2 1)) = some ⟨3, 5, 2, 0⟩ ∧
    load_bSRAM_score true (memOfList (store_score_in_bSRAM 3 5 2 1)) ≠ some ⟨3, 5, 2, 1⟩ := by
  constructor <;> decide

/-- Claim C2 (amended): on restart with the wake flag set and durable storage
holding the bytes of the record 3,5,2,1 LF, the reconstructed ledger is
(3, 0, 0, 0), not (3, 5, 2, 1): after each comma the parser overwrites its
lookahead with the following byte without running the digit test, so the digits
5, 2 and 1 are never accumulated; with the wake flag clear the ledger is
(0, 0, 0, 0). -/
theorem load_compact_record_actual :
    load_bSRAM_score true (memOfList [51, 44, 53, 44, 50, 44, 49, 10]) = some ⟨3, 0, 0, 0⟩ ∧
    load_bSRAM_score false (memOfList [51, 44, 53, 44, 50, 44, 49, 10]) = some ⟨0, 0, 0, 0⟩ := by
  constructor <;> decide

/-- Claim C2 counterexample: with the wake flag set and storage holding the
bytes 3,5,2,1 LF the reconstructed ledger differs from (3, 5, 2, 1). -/
theorem load_compact_record_counterexample :
    load_bSRAM_score true (memOfList [51, 44, 53, 44, 50, 44, 49, 10]) ≠ some ⟨3, 5, 2, 1⟩ := by
  decide

/-- Claim C3 (code bug): on blank all-zero storage the length scan never
terminates, for any number of loop iterations.  The guard text_length at most
255 is vacuous for a uint8_t, so with no LF byte among offsets 0 to 255 the
loop rescans the same bytes forever instead of stopping at a 256-byte bound
with zeroed counters. -/
theorem scan_blank_never_terminates :
    ∀ fuel, findLen (fun _ => 0) fuel = none := by
  intro fuel
  unfold findLen
  exact scanAux_stuck _ (fun i _ => by omega) fuel 97 0 (by omega) (by omega)

/-- Claim C4 (amended): every persist writes, starting at the base address, the
labelled text record Nucleo Wins: a, Disc Wins: b, Ties: c, Game Error: d
terminated by CR LF and a trailing NUL, with each counter reduced to its
uint8_t value and printed in decimal, rather than the compact record of four
bare numbers terminated by a single LF. -/
theorem store_format_labeled (a b c d : Nat) :
    store_score_in_bSRAM a b c d =
      [78, 117, 99, 108, 101, 111, 32, 87, 105, 110, 115, 58, 32] ++ decBytes (a % 256) ++
      [44, 32, 68, 105, 115, 99, 32, 87, 105, 110, 115, 58, 32] ++ decBytes (b % 256) ++
      [44, 32, 84, 105, 101, 115, 58, 32] ++ decBytes (c % 256) ++
      [44, 32, 71, 97, 109, 101, 32, 69, 114, 114, 111, 114, 58, 32] ++ decBytes (d % 256) ++
      [13, 10, 0] := by
  simp [store_score_in_bSRAM, store_fmt, fmtBytes]

/-- Claim C4 counterexample: persisting the counters (3, 5, 2, 1) does not
write the claimed record 3,5,2,1 LF. -/
theorem store_format_counterexample :
    store_score_in_bSRAM 3 5 2 1 ≠ [51, 44, 53, 44, 50, 44, 49, 10] := by
  decide

/-- Claim C5 (amended): over a contiguous run of n active samples starting from
a reset counter the trigger fires exactly n / 100 times: zero times for n at
most 99, once for n between 100 and 199, and once more for every further 100
samples, because the counter restarts at zero after each firing. -/
theorem debounce_fires_floor_div (n : Nat) :
    (debounceRun 0 (List.replicate n true)).2 = n / 100 := by
  have h := debounceRun_all_active n 0 (by omega)
  simpa using h

set_option maxRecDepth 8192 in
/-- Claim C5 counterexample: a contiguous run of 200 active samples fires the
trigger twice, not exactly once. -/
theorem debounce_refires_at_200 :
    (debounceRun 0 (List.replicate 200 true)).2 = 2 ∧
    (debounceRun 0 (List.replicate 200 true)).2 ≠ 1 := by
  constructor <;> decide

/-- Claim C6 (amended): for uint8_t inputs the win arbiter never returns 4 when
both inputs are in the domain 0, 1, 2; when at least one input is out of the
domain it returns 4 if the inputs differ, but returns 3 (tie) if they are
equal, because the equality test precedes the fallback. -/
theorem determine_win_domain_behavior (a b : Nat) (ha : a < 256) (hb : b < 256) :
    (a < 3 → b < 3 → Determine_Win a b ≠ 4) ∧
    ((3 ≤ a ∨ 3 ≤ b) → Determine_Win a b = if a = b then 3 else 4) := by
  unfold Determine_Win
  split_ifs <;> omega

/-- Claim C6 witness: the theorem instantiated at the out-of-domain unequal
pair (3, 7), where the arbiter returns 4. -/
theorem determine_win_domain_behavior_witness :
    Determine_Win 3 7 = if 3 = 7 then 3 else 4 :=
  (determine_win_domain_behavior 3 7 (by omega) (by omega)).2 (Or.inl (by omega))

/-- Claim C6 counterexample: the pair (3, 3) has both inputs outside the
domain, yet the arbiter returns 3 (tie) rather than 4 (invalid). -/
theorem determine_win_equal_out_of_domain :
    Determine_Win 3 3 = 3 ∧ Determine_Win 3 3 ≠ 4 := by
  decide

/-- Claim C7 (confirmed): for hands in the domain 0, 1, 2 the arbiter returns
3 (tie) exactly for equal hands, and on swapped unequal hands it names opposite
winners: one call returns 1 exactly when the swapped call returns 2, and
conversely. -/
theorem determine_win_tie_iff_and_antisym (a b : Nat) (ha : a < 3) (hb : b < 3) :
    (Determine_Win a b = 3 ↔ a = b) ∧
    (a ≠ b → ((Determine_Win a b = 1 ↔ Determine_Win b a = 2) ∧
              (Determine_Win a b = 2 ↔ Determine_Win b a = 1))) := by
  interval_cases a <;> interval_cases b <;> decide

/-- Claim C7 witness: the theorem instantiated at the unequal pair (0, 1). -/
theorem determine_win_tie_iff_and_antisym_witness :
    (Determine_Win 0 1 = 3 ↔ (0 : Nat) = 1) ∧
    ((Determine_Win 0 1 = 1 ↔ Determine_Win 1 0 = 2) ∧
     (Determine_Win 0 1 = 2 ↔ Determine_Win 1 0 = 1)) :=
  ⟨(determine_win_tie_iff_and_antisym 0 1 (by omega) (by omega)).1,
   (determine_win_tie_iff_and_antisym 0 1 (by omega) (by omega)).2 (by omega)⟩

/-- Claim C8 (amended): the counters are uint8_t, so each received frame leaves
every ledger counter unchanged or increments exactly one of them modulo 256:
each counter is non-decreasing across an event unless it already holds 255, in
which case the increment wraps it to 0. -/
theorem ledger_monotone_mod_wrap (st : Ledger) (StdId : Nat) (rtr : RTRKind) (b : Nat)
    (h1 : st.nucleo_wins ≤ 255) (h2 : st.disc_wins ≤ 255)
    (h3 : st.tie_count ≤ 255) (h4 : st.game_err ≤ 255) :
    let st2 := (HAL_CAN_RxFifo0MsgPendingCallback st StdId rtr b).ledger
    (st.nucleo_wins ≤ st2.nucleo_wins ∨ (st.nucleo_wins = 255 ∧ st2.nucleo_wins = 0)) ∧
    (st.disc_wins ≤ st2.disc_wins ∨ (st.disc_wins = 255 ∧ st2.disc_wins = 0)) ∧
    (st.tie_count ≤ st2.tie_count ∨ (st.tie_count = 255 ∧ st2.tie_count = 0)) ∧
    (st.game_err ≤ st2.game_err ∨ (st.game_err = 255 ∧ st2.game_err = 0)) := by
  unfold HAL_CAN_RxFifo0MsgPendingCallback score_switch
  split_ifs <;> simp_all <;> omega

/-- Claim C8 witness: the theorem instantiated at the ledger (1, 2, 3, 255)
receiving a result-announcement frame carrying 4, which wraps the error
counter. -/
theorem ledger_monotone_mod_wrap_witness :
    (1 ≤ (HAL_CAN_RxFifo0MsgPendingCallback ⟨1, 2, 3, 255⟩ 0x111 RTRKind.data 4).ledger.nucleo_wins ∨
      ((1 : Nat) = 255 ∧ (HAL_CAN_RxFifo0MsgPendingCallback ⟨1, 2, 3, 255⟩ 0x111 RTRKind.data 4).ledger.nucleo_wins = 0)) ∧
    (2 ≤ (HAL_CAN_RxFifo0MsgPendingCallback ⟨1, 2, 3, 255⟩ 0x111 RTRKind.data 4).ledger.disc_wins ∨
      ((2 : Nat) = 255 ∧ (HAL_CAN_RxFifo0MsgPendingCallback ⟨1, 2, 3, 255⟩ 0x111 RTRKind.data 4).ledger.disc_wins = 0)) ∧
    (3 ≤ (HAL_CAN_RxFifo0MsgPendingCallback ⟨1, 2, 3, 255⟩ 0x111 RTRKind.data 4).ledger.tie_count ∨
      ((3 : Nat) = 255 ∧ (HAL_CAN_RxFifo0MsgPendingCallback ⟨1, 2, 3, 255⟩ 0x111 RTRKind.data 4).ledger.tie_count = 0)) ∧
    (255 ≤ (HAL_CAN_RxFifo0MsgPendingCallback ⟨1, 2, 3, 255⟩ 0x111 RTRKind.data 4).ledger.game_err ∨
      ((255 : Nat) = 255 ∧ (HAL_CAN_RxFifo0MsgPendingCallback ⟨1, 2, 3, 255⟩ 0x111 RTRKind.data 4).ledger.game_err = 0)) :=
  ledger_monotone_mod_wrap ⟨1, 2, 3, 255⟩ 0x111 RTRKind.data 4
    (by decide) (by decide) (by decide) (by decide)

/-- Claim C8 counterexample: a ledger whose nucleo-wins counter holds 255
receives a result-announcement carrying 1; the counter drops to 0, violating
non-decrease. -/
theorem ledger_wraps_at_255 :
    (HAL_CAN_RxFifo0MsgPendingCallback ⟨255, 0, 0, 0⟩ 0x111 RTRKind.data 1).ledger.nucleo_wins = 0 ∧
    ¬ 255 ≤ (HAL_CAN_RxFifo0MsgPendingCallback ⟨255, 0, 0, 0⟩ 0x111 RTRKind.data 1).ledger.nucleo_wins := by
  constructor <;> decide

/-- Claim C9 (code bug): the result-announcement frame built by
send_game_result declares a payload length of 2 bytes, not 1, although the
buffer handed to the transmit call is the single result byte. -/
theorem send_game_result_dlc_two :
    (send_game_result 2).DLC = 2 ∧ (send_game_result 2).DLC ≠ 1 := by
  constructor <;> decide

/-- Claim C10 (confirmed): when the initiator receive handler processes a
result-announcement frame (identifier 0x111, data kind) whose first payload
byte is outside 1..4, no ledger counter changes, yet the handler still rewrites
the durable mirror with the unchanged counter values. -/
theorem invalid_result_keeps_ledger_and_persists (st : Ledger) (b : Nat)
    (_hb : b < 256) (hb1 : b ≠ 1) (hb2 : b ≠ 2) (hb3 : b ≠ 3) (hb4 : b ≠ 4) :
    (HAL_CAN_RxFifo0MsgPendingCallback st 0x111 RTRKind.data b).ledger = st ∧
    (HAL_CAN_RxFifo0MsgPendingCallback st 0x111 RTRKind.data b).stored =
      some (store_score_in_bSRAM st.nucleo_wins st.disc_wins st.tie_count st.game_err) := by
  unfold HAL_CAN_RxFifo0MsgPendingCallback score_switch
  simp [hb1, hb2, hb3, hb4]

/-- Claim C10 witness: the theorem instantiated at the ledger (3, 5, 2, 1) and
payload byte 7. -/
theorem invalid_result_keeps_ledger_and_persists_witness :
    (HAL_CAN_RxFifo0MsgPendingCallback ⟨3, 5, 2, 1⟩ 0x111 RTRKind.data 7).ledger = ⟨3, 5, 2, 1⟩ ∧
    (HAL_CAN_RxFifo0MsgPendingCallback ⟨3, 5, 2, 1⟩ 0x111 RTRKind.data 7).stored =
      some (store_score_in_bSRAM 3 5 2 1) :=
  invalid_result_keeps_ledger_and_persists ⟨3, 5, 2, 1⟩ 7
    (by omega) (by omega) (by omega) (by omega) (by omega)
